import Mathlib

/-!
Verification of the EPI governance core against its specification.

The embedded code: the score engine (src/epi/calculator.py), the trust
ledger (src/epi/trust_accumulator.py), the policy pipeline
(src/policy_engine/validator.py) and the audit logger
(src/policy_engine/logger.py).

Modelling conventions.  Python floats are idealised as exact rationals.
The constant PHI, computed by the source as (np.sqrt(5) - 1) / 2 in
double precision, is taken at its exact IEEE-754 double value, a dyadic
rational; likewise GOLDEN_RATIO = (1 + np.sqrt(5)) / 2.  The value NaN,
which really arises in the pipeline (np.mean of an empty list is NaN),
is modelled explicitly: a quantity of type PyF is an Option, and none
stands for a non-finite float (NaN, or the explicit infinity returned
by golden_ratio_deviation when ethics is 0).  The comparison and max
operators mirror CPython semantics on NaN: every comparison with NaN is
false, and max of two arguments returns the second only when the
second compares strictly greater, so max(0.0, nan) is 0.0.
-/

namespace EPI

/-- A Python float that may be non-finite: none models NaN (and the one
float-inf sentinel produced by golden_ratio_deviation); some q models
the finite value q, idealised as an exact rational. -/
abbrev PyF : Type := Option ℚ

/-- Float addition: NaN propagates. -/
def fadd : PyF → PyF → PyF
  | some a, some b => some (a + b)
  | _, _ => none

/-- Float subtraction: NaN propagates. -/
def fsub : PyF → PyF → PyF
  | some a, some b => some (a - b)
  | _, _ => none

/-- Float multiplication: NaN propagates (in particular nan * 0 = nan). -/
def fmul : PyF → PyF → PyF
  | some a, some b => some (a * b)
  | _, _ => none

/-- Float division: NaN propagates.  Division of a finite float by zero
raises ZeroDivisionError in Python; it is modelled as an undefined value
here and is unreachable in the embedded code under the documented
range contract on the inputs. -/
def fdiv : PyF → PyF → PyF
  | some a, some b => if b = 0 then none else some (a / b)
  | _, _ => none

/-- Float absolute value: NaN propagates. -/
def fabs : PyF → PyF
  | some a => some |a|
  | none => none

/-- Python equality on floats: NaN compares unequal to everything,
including itself. -/
def pyEq : PyF → PyF → Bool
  | some a, some b => decide (a = b)
  | _, _ => false

/-- Python strict less-than on floats: any comparison with NaN is false. -/
def pyLt : PyF → PyF → Bool
  | some a, some b => decide (a < b)
  | _, _ => false

/-- Python greater-or-equal on floats: any comparison with NaN is false. -/
def pyGe : PyF → PyF → Bool
  | some a, some b => decide (b ≤ a)
  | _, _ => false

/-- CPython max(a, b): returns b only when b compares strictly greater
than a, hence max(0.0, nan) = 0.0. -/
def pymax (x y : PyF) : PyF := if pyLt x y then y else x

/-- CPython min(a, b): returns b only when b compares strictly less
than a. -/
def pymin (x y : PyF) : PyF := if pyLt y x then y else x

/-- PHI = (np.sqrt(5) - 1) / 2 as computed by calculator.py in double
precision: the exact value of the resulting double, about 0.6180339887. -/
def PHI : ℚ := 347922205179541 / 562949953421312

/-- GOLDEN_RATIO = (1 + np.sqrt(5)) / 2 as computed by calculator.py in
double precision: the exact value of the resulting double, about
1.6180339887. -/
def GOLDEN_RATIO : ℚ := 910872158600853 / 562949953421312

/-- Input scores for EPI computation (dataclass EPIScores).  Profit and
ethics are floats that may be NaN when fed from the pipeline; violation
severities are plain floats. -/
structure EPIScores where
  profit : PyF
  ethics : PyF
  violations : List ℚ
  stakeholder_sentiment : ℚ := 1/2

/-- EPICalculator.harmonic_mean: returns 0 if p == 0 or e == 0, else
2pe/(p+e).  The equality tests follow Python semantics, so a NaN input
falls through to the arithmetic branch and propagates. -/
def harmonic_mean (p e : PyF) : PyF :=
  if pyEq p (some 0) || pyEq e (some 0) then some 0
  else fdiv (fmul (fmul (some 2) p) e) (fadd p e)

/-- EPICalculator.balance_penalty: max(0, 1 - phi_weight * PHI * (p - e  ).abs).
With a NaN operand the inner expression is NaN and the outer
max(0.0, nan) collapses to 0.0 (CPython argument order). -/
def balance_penalty (phi_weight : ℚ) (p e : PyF) : PyF :=
  let imbalance := fabs (fsub p e)
  let penalty := fsub (some 1) (fmul (some (phi_weight * PHI)) imbalance)
  pymax (some 0) penalty

/-- EPICalculator.trust_accumulator: multiplies (1 - severity) over the
violations in order, short-circuiting to exactly 0 as soon as the
running value drops below 1e-6. -/
def trust_accumulator : List ℚ → ℚ → ℚ
  | [], trust => trust
  | delta :: rest, trust =>
    let t := trust * (1 - delta)
    if t < 1/1000000 then 0 else trust_accumulator rest t

/-- EPICalculator.golden_ratio_deviation: none models the float-inf
sentinel returned when e == 0 (and NaN propagation otherwise); in the
finite case it is min(ratio - GOLDEN_RATIO, ratio - 1/GOLDEN_RATIO)
in absolute value, with ratio = p/e. -/
def golden_ratio_deviation (p e : PyF) : PyF :=
  if pyEq e (some 0) then none
  else
    let ratio := fdiv p e
    let dev_phi := fabs (fsub ratio (some GOLDEN_RATIO))
    let dev_inv_phi := fabs (fsub ratio (some (1 / GOLDEN_RATIO)))
    pymin dev_phi dev_inv_phi

/-- Rejection or approval reason recorded in the trace of compute_epi. -/
inductive Reason where
  | rejectedHarmonic
  | rejectedImbalance
  | rejectedTrust
  | rejectedBelowThreshold
  | approved
deriving DecidableEq

/-- The trace dictionary returned by EPICalculator.compute_epi. -/
structure EPITrace where
  hmean : PyF
  balance_penalty : PyF
  trust : ℚ
  epi : PyF
  golden_ratio_deviation : PyF
  stakeholder_sentiment : Option ℚ
  threshold : ℚ
  reason : Reason
deriving DecidableEq

/-- The triple returned by EPICalculator.compute_epi. -/
structure EPIResult where
  epi : PyF
  is_valid : Bool
  trace : EPITrace
deriving DecidableEq

/-- EPICalculator.compute_epi for a calculator with the given threshold
and phi_weight (the constructor defaults are 0.7 and 1.0): computes
EPI = H(P,E) x B(P,E) x T(V), optionally times sentiment, compares to
the threshold with Python greater-or-equal (false on NaN), and selects
the reason by the source's if-elif chain. -/
def compute_epi (threshold phi_weight : ℚ) (scores : EPIScores)
    (include_sentiment : Bool) : EPIResult :=
  let hmean := harmonic_mean scores.profit scores.ethics
  let penalty := balance_penalty phi_weight scores.profit scores.ethics
  let trust := trust_accumulator scores.violations 1
  let base := fmul (fmul hmean penalty) (some trust)
  let epi := if include_sentiment then fmul base (some scores.stakeholder_sentiment) else base
  let gr_deviation := golden_ratio_deviation scores.profit scores.ethics
  let is_valid := pyGe epi (some threshold)
  let reason :=
    if is_valid then Reason.approved
    else if pyLt hmean (some (1/2)) then Reason.rejectedHarmonic
    else if pyLt penalty (some (7/10)) then Reason.rejectedImbalance
    else if trust < 1/2 then Reason.rejectedTrust
    else Reason.rejectedBelowThreshold
  { epi := epi
  , is_valid := is_valid
  , trace :=
    { hmean := hmean
    , balance_penalty := penalty
    , trust := trust
    , epi := epi
    , golden_ratio_deviation := gr_deviation
    , stakeholder_sentiment := if include_sentiment then some scores.stakeholder_sentiment else none
    , threshold := threshold
    , reason := reason } }

/-- ViolationRecord dataclass of trust_accumulator.py. -/
structure ViolationRecord where
  severity : ℚ
  timestamp : ℤ
  description : String := ""
deriving DecidableEq

/-- The mutable state of a TrustAccumulator instance. -/
structure TrustAccumulatorState where
  initial_trust : ℚ
  min_threshold : ℚ
  current_trust : ℚ
  violations : List ViolationRecord
deriving DecidableEq

/-- TrustAccumulator constructor (defaults initial_trust=1.0,
min_threshold=0.1). -/
def mkTrustAccumulator (initial_trust : ℚ := 1) (min_threshold : ℚ := 1/10) :
    TrustAccumulatorState :=
  { initial_trust := initial_trust
  , min_threshold := min_threshold
  , current_trust := initial_trust
  , violations := [] }

/-- TrustAccumulator.record_violation: appends the event, multiplies
current trust by (1 - severity), and clamps to exactly 0 when the
result is below min_threshold.  The Python return value is the
current_trust field of the resulting state. -/
def record_violation (s : TrustAccumulatorState) (v : ViolationRecord) :
    TrustAccumulatorState :=
  let t := s.current_trust * (1 - v.severity)
  { s with
    violations := s.violations ++ [v]
  , current_trust := if t < s.min_threshold then 0 else t }

/-- TrustAccumulator.reset: clears the history and sets current trust to
the given value, defaulting to initial_trust when none is supplied. -/
def reset (s : TrustAccumulatorState) (new_trust : Option ℚ) :
    TrustAccumulatorState :=
  { s with
    current_trust := new_trust.getD s.initial_trust
  , violations := [] }

/-- A sequence of record_violation calls applied in order. -/
def applyViolations (s : TrustAccumulatorState) (vs : List ViolationRecord) :
    TrustAccumulatorState :=
  vs.foldl record_violation s

/-- A Python value stored under the sanctioned key of an intent dict;
validator.py never reads it, only tests key membership. -/
inductive PyValue where
  | pyBool (b : Bool)
  | pyInt (n : ℤ)
  | pyNone
  | pyStr (s : String)
deriving DecidableEq

/-- The fields of an intent dict that validator.py reads.  sanctioned is
some v exactly when the key is present (with value v).  ethics_factors
models the values() view of the ethics_factors dict, in insertion
order; a missing key defaults to the empty dict, hence the empty list.
exposure_ratio, roi_proxy and past_violations carry the dict.get
defaults of the source. -/
structure Intent where
  sanctioned : Option PyValue := none
  exposure_ratio : ℚ := 0
  ethics_factors : List ℚ := []
  roi_proxy : ℚ := 0
  past_violations : List ℚ := []

/-- np.mean of a list of floats: the arithmetic mean for a nonempty
list, and NaN (with a RuntimeWarning) for an empty list. -/
def npMean (xs : List ℚ) : PyF :=
  if xs.isEmpty then none else some (xs.sum / (xs.length : ℚ))

/-- The ethics input that validate_intent feeds to the score engine:
np.mean of the listed ethics factor values. -/
def ethicsInput (intent : Intent) : PyF :=
  npMean intent.ethics_factors

/-- Reason string of a PolicyValidator decision. -/
inductive VReason where
  | complianceFail
  | epiRejection
  | riskExceed
  | approvedOk
deriving DecidableEq

/-- The decision dict returned by PolicyValidator.validate_intent.  The
compliance-fail branch returns a dict with no epi_trace and no
risk_score key, modelled by none in those fields. -/
structure PolicyDecision where
  approved : Bool
  epi_trace : Option EPITrace
  risk_score : Option ℚ
  reason : VReason
deriving DecidableEq

/-- PolicyValidator.validate_intent.  The validator is constructed with
EPICalculator() and hence threshold 0.7 and phi_weight 1.0.  The
compliance gate tests only membership of the sanctioned key; the risk
score is 1 - min(exposure_ratio, 1); ethics is np.mean of the factor
values; and the final approval requires a valid EPI together with a
risk score strictly above 0.5. -/
def validate_intent (intent : Intent) : PolicyDecision :=
  if intent.sanctioned.isSome then
    { approved := false, epi_trace := none, risk_score := none
    , reason := VReason.complianceFail }
  else
    let risk_score : ℚ := 1 - min intent.exposure_ratio 1
    let ethics := ethicsInput intent
    let profit := some intent.roi_proxy
    let violations := intent.past_violations
    let scores : EPIScores :=
      { profit := profit, ethics := ethics, violations := violations }
    let r := compute_epi (7/10) 1 scores false
    let approved := r.is_valid && decide ((1:ℚ)/2 < risk_score)
    { approved := approved
    , epi_trace := some r.trace
    , risk_score := some risk_score
    , reason :=
        if !r.is_valid then VReason.epiRejection
        else if risk_score ≤ 1/2 then VReason.riskExceed
        else VReason.approvedOk }

/-- ThoughtRecord dataclass of logger.py.  The dict-valued payload
fields are modelled as association lists from string keys to serialised
string values; their contents are irrelevant to the claims. -/
structure ThoughtRecord where
  timestamp : ℤ
  agent_id : String
  action : String
  reasoning : String
  epi_trace : List (String × String)
  inputs : List (String × String)
  outputs : List (String × String)
  metadata : List (String × String)
deriving DecidableEq

/-- The observable state of a ThoughtLogger: its session id and the log
directory, modelled as an association list from file names to the
records whose JSON they hold (the JSON serialisation round-trips back
to the record through get_thought_history). -/
structure ThoughtLogger where
  session_id : String
  files : List (String × ThoughtRecord)
deriving DecidableEq

/-- The file name a record is persisted under: session_id, an
underscore, the second-granularity unix timestamp, and the json
extension. -/
def logFileName (session_id : String) (timestamp : ℤ) : String :=
  session_id ++ "_" ++ toString timestamp ++ ".json"

/-- Writing a file: opening an existing path in mode w truncates and
replaces its contents; a fresh path creates a new directory entry. -/
def writeFile (files : List (String × ThoughtRecord)) (name : String)
    (r : ThoughtRecord) : List (String × ThoughtRecord) :=
  if files.any (fun f => f.1 == name) then
    files.map (fun f => if f.1 == name then (name, r) else f)
  else
    files ++ [(name, r)]

/-- ThoughtLogger.log_thought: builds the record with timestamp
int(time.time()) (the now argument, at second granularity), serialises
it, and writes it to the file named session_id underscore timestamp.
The sha256 digest the source also returns is over the serialised JSON
and plays no part in the storage keying. -/
def log_thought (lg : ThoughtLogger) (now : ℤ)
    (agent_id action reasoning : String)
    (epi_trace inputs outputs : List (String × String))
    (metadata : Option (List (String × String))) : ThoughtLogger :=
  let record : ThoughtRecord :=
    { timestamp := now
    , agent_id := agent_id
    , action := action
    , reasoning := reasoning
    , epi_trace := epi_trace
    , inputs := inputs
    , outputs := outputs
    , metadata := metadata.getD [] }
  { lg with
    files := writeFile lg.files (logFileName lg.session_id record.timestamp) record }

/-- Insertion into a list of directory entries kept in descending
file-name order (the source sorts the glob result with reverse=True). -/
def insertFileDesc (x : String × ThoughtRecord) :
    List (String × ThoughtRecord) → List (String × ThoughtRecord)
  | [] => [x]
  | y :: ys => if x.1 < y.1 then y :: insertFileDesc x ys else x :: y :: ys

/-- The directory listing sorted by file name, most recent first. -/
def sortFilesDesc (files : List (String × ThoughtRecord)) :
    List (String × ThoughtRecord) :=
  files.foldr insertFileDesc []

/-- The filter test of get_thought_history: a record is skipped when the
filter argument is truthy (present and nonempty) and differs from the
record's field. -/
def passesFilter (filter : Option String) (value : String) : Bool :=
  match filter with
  | none => true
  | some a => !(a != "" && value != a)

/-- ThoughtLogger.get_thought_history: reads the first limit files of
the name-sorted (descending) directory, parses each back into a record,
and keeps those passing the agent and action filters. -/
def get_thought_history (lg : ThoughtLogger) (agent_id action : Option String)
    (limit : ℕ) : List ThoughtRecord :=
  ((sortFilesDesc lg.files).take limit).filterMap (fun f =>
    if passesFilter agent_id f.2.agent_id && passesFilter action f.2.action then
      some f.2
    else
      none)

/-! Helper lemmas about the embedded operations, shared by the claim
theorems below. -/

theorem harmonic_mean_some_eq (p e : ℚ) (hp : 0 ≤ p) (he : 0 ≤ e) :
    harmonic_mean (some p) (some e) =
      some (if p = 0 ∨ e = 0 then 0 else 2 * p * e / (p + e)) := by
  by_cases h : p = 0 ∨ e = 0
  · simp [harmonic_mean, pyEq, h]
  · push_neg at h
    have hpe : p + e ≠ 0 := by
      have hp' : 0 < p := lt_of_le_of_ne hp (Ne.symm h.1)
      have he' : 0 < e := lt_of_le_of_ne he (Ne.symm h.2)
      positivity
    simp [harmonic_mean, pyEq, h.1, h.2, fdiv, fmul, fadd, hpe]

theorem balance_penalty_some_eq (w p e : ℚ) :
    balance_penalty w (some p) (some e) =
      some (max 0 (1 - w * PHI * |p - e|)) := by
  simp only [balance_penalty, fsub, fmul, fabs, pymax, pyLt]
  rcases le_or_lt (1 - w * PHI * |p - e|) 0 with h | h
  · rw [if_neg (by simpa using h.not_lt), max_eq_left h]
  · rw [if_pos (by simpa using h), max_eq_right h.le]

theorem pyGe_some_right_iff (x : PyF) (c : ℚ) :
    pyGe x (some c) = true ↔ ∃ q : ℚ, x = some q ∧ c ≤ q := by
  cases x <;> simp [pyGe]

theorem compute_epi_trace_hmean (threshold w : ℚ) (s : EPIScores) (inc : Bool) :
    (compute_epi threshold w s inc).trace.hmean = harmonic_mean s.profit s.ethics := rfl

theorem compute_epi_trace_penalty (threshold w : ℚ) (s : EPIScores) (inc : Bool) :
    (compute_epi threshold w s inc).trace.balance_penalty =
      balance_penalty w s.profit s.ethics := rfl

theorem compute_epi_trace_trust (threshold w : ℚ) (s : EPIScores) (inc : Bool) :
    (compute_epi threshold w s inc).trace.trust =
      trust_accumulator s.violations 1 := rfl

theorem compute_epi_valid_eq (threshold w : ℚ) (s : EPIScores) (inc : Bool) :
    (compute_epi threshold w s inc).is_valid =
      pyGe (compute_epi threshold w s inc).epi (some threshold) := rfl

theorem compute_epi_reason_eq (threshold w : ℚ) (s : EPIScores) (inc : Bool) :
    (compute_epi threshold w s inc).trace.reason =
      (if (compute_epi threshold w s inc).is_valid then Reason.approved
       else if pyLt (compute_epi threshold w s inc).trace.hmean (some (1/2)) then
         Reason.rejectedHarmonic
       else if pyLt (compute_epi threshold w s inc).trace.balance_penalty (some (7/10)) then
         Reason.rejectedImbalance
       else if (compute_epi threshold w s inc).trace.trust < 1/2 then
         Reason.rejectedTrust
       else Reason.rejectedBelowThreshold) := rfl

/-! Claim theorems. -/

/-- Claim C4, counterexample: on profit 0.9, ethics 0.8, no violations and
threshold 0.7, the index computed by compute_epi is about 0.7947, which is
not approximately 0.741: it differs from 0.741 by more than 0.05. -/
theorem scenarioA_counterexample :
    ∃ q : ℚ,
      (compute_epi (7/10) 1
        { profit := some (9/10), ethics := some (8/10), violations := [] } false).epi
          = some q ∧
      1/20 < |q - 741/1000| := by
  refine ⟨72/85 * ((1 - PHI * (1/10)) * 1), ?_, ?_⟩
  · norm_num [compute_epi, harmonic_mean, balance_penalty, trust_accumulator,
      fdiv, fmul, fadd, fsub, fabs, pymax, pyEq, pyLt, pyGe, PHI, abs_of_pos]
  · rw [abs_of_pos (by norm_num [PHI])]
    norm_num [PHI]

/-- Claim C4, amended: computeIndex on profit 0.9, ethics 0.8, no
violations, threshold 0.7 returns index approximately 0.7947 (harmonic
mean approximately 0.847 times balance penalty approximately 0.938 times
trust exactly 1), and valid = true. -/
theorem scenarioA_amended :
    (compute_epi (7/10) 1
      { profit := some (9/10), ethics := some (8/10), violations := [] } false).is_valid
        = true ∧
    (∃ q : ℚ,
      (compute_epi (7/10) 1
        { profit := some (9/10), ethics := some (8/10), violations := [] } false).epi
          = some q ∧ |q - 7947/10000| < 1/10000) ∧
    (∃ h : ℚ,
      (compute_epi (7/10) 1
        { profit := some (9/10), ethics := some (8/10), violations := [] } false).trace.hmean
          = some h ∧ |h - 847/1000| < 1/1000) ∧
    (∃ b : ℚ,
      (compute_epi (7/10) 1
        { profit := some (9/10), ethics := some (8/10), violations := [] } false).trace.balance_penalty
          = some b ∧ |b - 938/1000| < 1/1000) ∧
    (compute_epi (7/10) 1
      { profit := some (9/10), ethics := some (8/10), violations := [] } false).trace.trust
        = 1 := by
  refine ⟨?_, ⟨72/85 * ((1 - PHI * (1/10)) * 1), ?_, ?_⟩,
    ⟨72/85, ?_, ?_⟩, ⟨1 - PHI * (1/10), ?_, ?_⟩, ?_⟩
  · norm_num [compute_epi, harmonic_mean, balance_penalty, trust_accumulator,
      fdiv, fmul, fadd, fsub, fabs, pymax, pyEq, pyLt, pyGe, PHI, abs_of_pos]
  · norm_num [compute_epi, harmonic_mean, balance_penalty, trust_accumulator,
      fdiv, fmul, fadd, fsub, fabs, pymax, pyEq, pyLt, pyGe, PHI, abs_of_pos]
  · rw [abs_of_pos (by norm_num [PHI])]
    norm_num [PHI]
  · norm_num [compute_epi_trace_hmean, harmonic_mean, pyEq, fdiv, fmul, fadd]
  · rw [abs_of_pos (by norm_num)]
    norm_num
  · rw [compute_epi_trace_penalty, balance_penalty_some_eq]
    rw [max_eq_right (by norm_num [PHI, abs_of_pos])]
    norm_num [PHI, abs_of_pos]
  · rw [abs_of_pos (by norm_num [PHI])]
    norm_num [PHI]
  · norm_num [compute_epi_trace_trust, trust_accumulator]

/-- The trust decay loop never short-circuits when every partial product
stays at or above the 1e-6 floor, and then returns the initial trust
times the product of the per-violation factors. -/
theorem trust_accumulator_no_underflow (l : List ℚ) : ∀ init : ℚ,
    (∀ k : ℕ, 1 ≤ k → k ≤ l.length →
      1/1000000 ≤ init * ((l.take k).map (fun v => 1 - v)).prod) →
    trust_accumulator l init = init * (l.map (fun v => 1 - v)).prod := by
  induction l with
  | nil => intro init _; simp [trust_accumulator]
  | cons v rest ih =>
    intro init h
    have h1 : 1/1000000 ≤ init * (1 - v) := by
      have := h 1 le_rfl (by simp)
      simpa using this
    rw [trust_accumulator, if_neg (not_lt.mpr h1), ih (init * (1 - v)) ?_]
    · simp [mul_assoc]
    · intro k hk1 hk2
      have := h (k + 1) (by omega) (by simpa using hk2)
      simpa [List.take_succ_cons, mul_assoc] using this

/-- The trust decay loop short-circuits to exactly 0 as soon as some
partial product drops strictly below the 1e-6 floor. -/
theorem trust_accumulator_underflow (l : List ℚ) : ∀ init : ℚ,
    (∃ k : ℕ, 1 ≤ k ∧ k ≤ l.length ∧
      init * ((l.take k).map (fun v => 1 - v)).prod < 1/1000000) →
    trust_accumulator l init = 0 := by
  induction l with
  | nil =>
    intro init h
    obtain ⟨k, hk1, hk2, _⟩ := h
    simp at hk2
    omega
  | cons v rest ih =>
    intro init h
    obtain ⟨k, hk1, hk2, hlt⟩ := h
    by_cases hc : init * (1 - v) < 1/1000000
    · rw [trust_accumulator, if_pos hc]
    · rw [trust_accumulator, if_neg hc]
      apply ih
      obtain ⟨j, rfl⟩ : ∃ j, k = j + 1 := ⟨k - 1, by omega⟩
      rcases Nat.lt_or_ge j 1 with hj | hj
      · interval_cases j
        · exact absurd (by simpa using hlt) hc
      · refine ⟨j, hj, by simpa using hk2, ?_⟩
        have := hlt
        rw [List.take_succ_cons] at this
        simpa [mul_assoc] using this

/-- Claim C7: trustDecay of the empty list is the initial trust;
trustDecay of a severity list is the initial trust times the product of
the factors (1 - v) in input order, unless some running partial product
drops strictly below 1e-6, in which case the result is exactly 0; and
trustDecay of the list 0.1, 0.2, 0.15 from initial trust 1 is exactly
0.612. -/
theorem trust_decay_spec (init : ℚ) (l : List ℚ)
    (_hsev : ∀ v ∈ l, 0 ≤ v ∧ v ≤ 1) :
    trust_accumulator [] init = init ∧
    ((∃ k : ℕ, 1 ≤ k ∧ k ≤ l.length ∧
        init * ((l.take k).map (fun v => 1 - v)).prod < 1/1000000) →
      trust_accumulator l init = 0) ∧
    ((∀ k : ℕ, 1 ≤ k → k ≤ l.length →
        1/1000000 ≤ init * ((l.take k).map (fun v => 1 - v)).prod) →
      trust_accumulator l init = init * (l.map (fun v => 1 - v)).prod) ∧
    trust_accumulator [1/10, 2/10, 15/100] 1 = 153/250 :=
  ⟨rfl, trust_accumulator_underflow l init, trust_accumulator_no_underflow l init,
    by norm_num [trust_accumulator]⟩

/-- Claim C7, witness: the no-underflow branch evaluated on severities
0.1, 0.2, 0.15 yields exactly 0.612, and the underflow branch evaluated
on three severities of 0.999 yields exactly 0. -/
theorem trust_decay_spec_witness :
    trust_accumulator [1/10, 2/10, 15/100] 1 = 153/250 ∧
    trust_accumulator [999/1000, 999/1000, 999/1000] 1 = 0 := by
  have H := trust_decay_spec 1 [999/1000, 999/1000, 999/1000] (by norm_num)
  refine ⟨H.2.2.2, H.2.1 ⟨3, by norm_num, by norm_num, ?_⟩⟩
  norm_num [List.take]

/-- One record_violation step neither increases a nonnegative current
trust nor makes it negative, for severities in the unit interval. -/
theorem record_violation_step (s : TrustAccumulatorState) (v : ViolationRecord)
    (h0 : 0 ≤ s.current_trust) (h1 : 0 ≤ v.severity) (h2 : v.severity ≤ 1) :
    (record_violation s v).current_trust ≤ s.current_trust ∧
    0 ≤ (record_violation s v).current_trust := by
  simp only [record_violation]
  split_ifs with h
  · exact ⟨h0, le_rfl⟩
  · constructor
    · exact mul_le_of_le_one_right h0 (by linarith)
    · exact mul_nonneg h0 (by linarith)

/-- Applying a sequence of violations never increases a nonnegative
current trust and keeps it nonnegative. -/
theorem applyViolations_le (vs : List ViolationRecord) :
    ∀ s : TrustAccumulatorState, 0 ≤ s.current_trust →
    (∀ v ∈ vs, 0 ≤ v.severity ∧ v.severity ≤ 1) →
    (applyViolations s vs).current_trust ≤ s.current_trust ∧
    0 ≤ (applyViolations s vs).current_trust := by
  induction vs with
  | nil => intro s h0 _; exact ⟨le_rfl, h0⟩
  | cons v rest ih =>
    intro s h0 hsev
    have hv := hsev v (by simp)
    have hstep := record_violation_step s v h0 hv.1 hv.2
    have hrec := ih (record_violation s v) hstep.2
      (fun w hw => hsev w (by simp [hw]))
    exact ⟨le_trans hrec.1 hstep.1, hrec.2⟩

/-- Once the current trust is exactly 0, any further sequence of
record_violation calls leaves it at exactly 0. -/
theorem applyViolations_zero (vs : List ViolationRecord) :
    ∀ s : TrustAccumulatorState, s.current_trust = 0 →
    (applyViolations s vs).current_trust = 0 := by
  induction vs with
  | nil => intro s h; exact h
  | cons v rest ih =>
    intro s h
    apply ih
    simp only [record_violation, h, zero_mul]
    split_ifs <;> rfl

/-- Claim C3: for a trust ledger state with nonnegative current trust
and any sequence of violations with severities in the unit interval,
the current trust is non-increasing across every split point of the
sequence; a decay step whose product drops below min_threshold clamps
the current trust to exactly 0; once it is 0 it stays 0 under further
record_violation calls; and reset sets the current trust to any chosen
value, the only operation that can increase it. -/
theorem trust_ledger_monotone (s : TrustAccumulatorState)
    (vs : List ViolationRecord) (h0 : 0 ≤ s.current_trust)
    (hsev : ∀ v ∈ vs, 0 ≤ v.severity ∧ v.severity ≤ 1) :
    (∀ l₁ l₂, vs = l₁ ++ l₂ →
      (applyViolations s vs).current_trust ≤ (applyViolations s l₁).current_trust) ∧
    (∀ l₁ l₂, vs = l₁ ++ l₂ → (applyViolations s l₁).current_trust = 0 →
      (applyViolations s vs).current_trust = 0) ∧
    (∀ v : ViolationRecord,
      s.current_trust * (1 - v.severity) < s.min_threshold →
      (record_violation s v).current_trust = 0) ∧
    (∀ q : ℚ, (reset s (some q)).current_trust = q) := by
  refine ⟨?_, ?_, ?_, ?_⟩
  · intro l₁ l₂ hsplit
    subst hsplit
    rw [applyViolations, List.foldl_append]
    have h1 := applyViolations_le l₁ s h0
      (fun w hw => hsev w (by simp [hw]))
    have h2 := applyViolations_le l₂ (applyViolations s l₁) h1.2
      (fun w hw => hsev w (by simp [hw]))
    exact h2.1
  · intro l₁ l₂ hsplit hzero
    subst hsplit
    rw [applyViolations, List.foldl_append]
    exact applyViolations_zero l₂ (applyViolations s l₁) hzero
  · intro v h
    simp [record_violation, h]
  · intro q
    rfl

/-- Claim C3, witness: from initial trust 1 and min threshold 0.1, the
violation sequence with severities 0.3, 0.95, 0.1 drives the trust to
exactly 0 (0.7 times 0.05 is 0.035, below the threshold, hence clamped)
and the final trust does not exceed the starting trust. -/
theorem trust_ledger_monotone_witness :
    (applyViolations (mkTrustAccumulator 1 (1/10))
      [⟨3/10, 0, ""⟩, ⟨19/20, 1, ""⟩, ⟨1/10, 2, ""⟩]).current_trust ≤
      (applyViolations (mkTrustAccumulator 1 (1/10)) []).current_trust ∧
    (applyViolations (mkTrustAccumulator 1 (1/10))
      [⟨3/10, 0, ""⟩, ⟨19/20, 1, ""⟩, ⟨1/10, 2, ""⟩]).current_trust = 0 := by
  have H := trust_ledger_monotone (mkTrustAccumulator 1 (1/10))
    [⟨3/10, 0, ""⟩, ⟨19/20, 1, ""⟩, ⟨1/10, 2, ""⟩]
    (by norm_num [mkTrustAccumulator]) (by norm_num)
  refine ⟨H.1 [] _ rfl, ?_⟩
  have h2 := H.2.2.1
  norm_num [applyViolations, record_violation, mkTrustAccumulator]

/-- Claim C5: whenever compute_epi rejects an input with profit and
ethics in the unit interval, the recorded reason follows first-match
precedence: harmonic mean below 0.5 gives the harmonic reason; otherwise
balance penalty below 0.7 gives the imbalance reason; otherwise trust
below 0.5 gives the trust reason; otherwise the below-threshold
reason. -/
theorem reason_precedence (threshold w p e sent : ℚ) (viols : List ℚ)
    (inc : Bool) (hp0 : 0 ≤ p) (he0 : 0 ≤ e)
    (r : EPIResult)
    (hr : r = compute_epi threshold w
      { profit := some p, ethics := some e, violations := viols
      , stakeholder_sentiment := sent } inc)
    (hvalid : r.is_valid = false) :
    ∃ h b : ℚ, r.trace.hmean = some h ∧ r.trace.balance_penalty = some b ∧
      (h < 1/2 → r.trace.reason = Reason.rejectedHarmonic) ∧
      (¬ h < 1/2 → b < 7/10 → r.trace.reason = Reason.rejectedImbalance) ∧
      (¬ h < 1/2 → ¬ b < 7/10 → r.trace.trust < 1/2 →
        r.trace.reason = Reason.rejectedTrust) ∧
      (¬ h < 1/2 → ¬ b < 7/10 → ¬ r.trace.trust < 1/2 →
        r.trace.reason = Reason.rejectedBelowThreshold) := by
  subst hr
  have hm : (compute_epi threshold w
      { profit := some p, ethics := some e, violations := viols
      , stakeholder_sentiment := sent } inc).trace.hmean
        = some (if p = 0 ∨ e = 0 then 0 else 2 * p * e / (p + e)) := by
    rw [compute_epi_trace_hmean]
    exact harmonic_mean_some_eq p e hp0 he0
  have hb : (compute_epi threshold w
      { profit := some p, ethics := some e, violations := viols
      , stakeholder_sentiment := sent } inc).trace.balance_penalty
        = some (max 0 (1 - w * PHI * |p - e|)) := by
    rw [compute_epi_trace_penalty]
    exact balance_penalty_some_eq w p e
  refine ⟨_, _, hm, hb, ?_, ?_, ?_, ?_⟩
  · intro hlt
    rw [compute_epi_reason_eq, hvalid]
    simp only [Bool.false_eq_true, if_false, hm, hb, pyLt, decide_eq_true_eq]
    rw [if_pos hlt]
  · intro h1 h2
    rw [compute_epi_reason_eq, hvalid]
    simp only [Bool.false_eq_true, if_false, hm, hb, pyLt, decide_eq_true_eq]
    rw [if_neg h1, if_pos h2]
  · intro h1 h2 h3
    rw [compute_epi_reason_eq, hvalid]
    simp only [Bool.false_eq_true, if_false, hm, hb, pyLt, decide_eq_true_eq]
    rw [if_neg h1, if_neg h2, if_pos h3]
  · intro h1 h2 h3
    rw [compute_epi_reason_eq, hvalid]
    simp only [Bool.false_eq_true, if_false, hm, hb, pyLt, decide_eq_true_eq]
    rw [if_neg h1, if_neg h2, if_neg h3]

/-- Claim C5, witness: profit 0.95 with ethics 0.2 (scenario B) is
rejected and the harmonic mean, about 0.330, is below 0.5, so the
first-match rule yields the harmonic-mean rejection reason. -/
theorem reason_precedence_witness :
    (compute_epi (7/10) 1
      { profit := some (19/20), ethics := some (1/5), violations := [] }
      false).trace.reason = Reason.rejectedHarmonic := by
  have hcalc : (compute_epi (7/10) 1
      { profit := some (19/20), ethics := some (1/5), violations := [] }
      false).trace.hmean = some (38/115) := by
    norm_num [compute_epi_trace_hmean, harmonic_mean, pyEq, fdiv, fmul, fadd]
  have hinv : (compute_epi (7/10) 1
      { profit := some (19/20), ethics := some (1/5), violations := [] }
      false).is_valid = false := by
    norm_num [compute_epi, harmonic_mean, balance_penalty, trust_accumulator,
      fdiv, fmul, fadd, fsub, fabs, pymax, pyEq, pyLt, pyGe, PHI, abs_of_pos]
  obtain ⟨h, b, hh, hbp, himp⟩ := reason_precedence (7/10) 1 (19/20) (1/5)
    (1/2) [] false (by norm_num) (by norm_num) _ rfl hinv
  rw [hcalc] at hh
  have hval : h = 38/115 := (Option.some.inj hh).symm
  exact himp.1 (by rw [hval]; norm_num)

/-- With a NaN ethics input, compute_epi is never valid (for a positive
threshold): the harmonic mean and hence the index are NaN when profit is
nonzero, and the index is exactly 0 when profit is 0; in both cases the
Python comparison of the index with the threshold is false. -/
theorem compute_epi_nan_ethics_invalid (threshold w p sent : ℚ)
    (viols : List ℚ) (inc : Bool) (ht : 0 < threshold) :
    (compute_epi threshold w
      { profit := some p, ethics := none, violations := viols
      , stakeholder_sentiment := sent } inc).is_valid = false := by
  by_cases hp : p = 0
  · simp [compute_epi, harmonic_mean, balance_penalty, pymax, pyEq, pyLt,
      pyGe, fadd, fsub, fmul, fdiv, fabs, hp, ht.not_le]
  · simp [compute_epi, harmonic_mean, balance_penalty, pymax, pyEq, pyLt,
      pyGe, fadd, fsub, fmul, fdiv, fabs, hp]

/-- Claim C1, counterexample: on an intent with no sanctioned key and an
empty ethics_factors map, the ethics input that validate_intent feeds to
the score engine is NaN (np.mean of an empty list), not the value 0. -/
theorem validate_empty_ethics_counterexample :
    ethicsInput { sanctioned := none, ethics_factors := [] } = none ∧
    ethicsInput { sanctioned := none, ethics_factors := [] } ≠ some 0 := by
  refine ⟨rfl, ?_⟩
  intro h
  simp [ethicsInput, npMean] at h

/-- Claim C1, amended: for every intent whose ethics_factors map is
absent or empty and with no sanctioned key, validate_intent computes
the ethics input to the score engine as NaN (the np.mean of an empty
list), not 0, and the intent is nevertheless rejected: approved is
false with the EPI-rejection reason. -/
theorem validate_empty_ethics_is_nan (intent : Intent)
    (hs : intent.sanctioned = none) (he : intent.ethics_factors = []) :
    ethicsInput intent = none ∧
    (validate_intent intent).approved = false ∧
    (validate_intent intent).reason = VReason.epiRejection := by
  have heth : ethicsInput intent = none := by
    simp [ethicsInput, npMean, he]
  have hinv := compute_epi_nan_ethics_invalid (7/10) 1 intent.roi_proxy (1/2)
    intent.past_violations false (by norm_num)
  refine ⟨heth, ?_, ?_⟩ <;>
    simp only [validate_intent, hs, Option.isSome_none, Bool.false_eq_true,
      if_false, heth, hinv, Bool.false_and, Bool.not_false, if_true]

/-- Claim C1, witness: a concrete intent with no sanctioned key, empty
ethics factors and profit 0.9 gets a NaN ethics input and is rejected. -/
theorem validate_empty_ethics_witness :
    ethicsInput { sanctioned := none, ethics_factors := [], roi_proxy := 9/10 } = none ∧
    (validate_intent
      { sanctioned := none, ethics_factors := [], roi_proxy := 9/10 }).approved = false ∧
    (validate_intent
      { sanctioned := none, ethics_factors := [], roi_proxy := 9/10 }).reason
        = VReason.epiRejection :=
  validate_empty_ethics_is_nan
    { sanctioned := none, ethics_factors := [], roi_proxy := 9/10 } rfl rfl

/-- Claim C6: for every non-sanctioned intent, validate_intent reports
risk score 1 - min(exposure ratio, 1), approves exactly when the
composite index is valid (index at least the 0.7 threshold) and the
risk score exceeds 0.5, and picks the reason with precedence EPI
rejection (invalid index) over risk exceeded (valid index, risk at most
0.5) over approved. -/
theorem validate_decision_rule (intent : Intent)
    (hs : intent.sanctioned = none)
    (r : EPIResult)
    (hr : r = compute_epi (7/10) 1
      { profit := some intent.roi_proxy, ethics := ethicsInput intent
      , violations := intent.past_violations } false) :
    (validate_intent intent).risk_score = some (1 - min intent.exposure_ratio 1) ∧
    ((validate_intent intent).approved = true ↔
      (r.is_valid = true ∧ 1/2 < 1 - min intent.exposure_ratio 1)) ∧
    (r.is_valid = true ↔ ∃ q : ℚ, r.epi = some q ∧ 7/10 ≤ q) ∧
    (r.is_valid = false →
      (validate_intent intent).reason = VReason.epiRejection) ∧
    (r.is_valid = true → 1 - min intent.exposure_ratio 1 ≤ 1/2 →
      (validate_intent intent).reason = VReason.riskExceed) ∧
    (r.is_valid = true → 1/2 < 1 - min intent.exposure_ratio 1 →
      (validate_intent intent).reason = VReason.approvedOk) := by
  subst hr
  have hval : validate_intent intent =
      { approved := (compute_epi (7/10) 1
          { profit := some intent.roi_proxy, ethics := ethicsInput intent
          , violations := intent.past_violations } false).is_valid
            && decide ((1:ℚ)/2 < 1 - min intent.exposure_ratio 1)
      , epi_trace := some (compute_epi (7/10) 1
          { profit := some intent.roi_proxy, ethics := ethicsInput intent
          , violations := intent.past_violations } false).trace
      , risk_score := some (1 - min intent.exposure_ratio 1)
      , reason :=
          if !(compute_epi (7/10) 1
            { profit := some intent.roi_proxy, ethics := ethicsInput intent
            , violations := intent.past_violations } false).is_valid then
            VReason.epiRejection
          else if 1 - min intent.exposure_ratio 1 ≤ 1/2 then VReason.riskExceed
          else VReason.approvedOk } := by
    simp only [validate_intent, hs, Option.isSome_none, Bool.false_eq_true,
      if_false]
  refine ⟨?_, ?_, ?_, ?_, ?_, ?_⟩
  · rw [hval]
  · rw [hval]
    simp [Bool.and_eq_true, decide_eq_true_eq]
  · rw [compute_epi_valid_eq]
    exact pyGe_some_right_iff _ _
  · intro h
    rw [hval]
    simp only [h, Bool.not_false, if_true]
  · intro h hrisk
    rw [hval]
    simp only [h, Bool.not_true, Bool.false_eq_true, if_false]
    rw [if_pos hrisk]
  · intro h hrisk
    rw [hval]
    simp only [h, Bool.not_true, Bool.false_eq_true, if_false]
    rw [if_neg (not_le.mpr hrisk)]

/-- Claim C6, witness: a non-sanctioned intent with profit 0.85, ethics
factors 0.9 and 0.7 (mean 0.8) and exposure ratio 0.2 has a valid index
(about 0.799) and risk score 0.8, hence is approved. -/
theorem validate_decision_rule_witness :
    (validate_intent
      { sanctioned := none, exposure_ratio := 1/5
      , ethics_factors := [9/10, 7/10], roi_proxy := 17/20 }).approved = true := by
  have H := validate_decision_rule
    { sanctioned := none, exposure_ratio := 1/5
    , ethics_factors := [9/10, 7/10], roi_proxy := 17/20 } rfl _ rfl
  apply H.2.1.mpr
  constructor
  · norm_num [ethicsInput, npMean, compute_epi, harmonic_mean, balance_penalty,
      trust_accumulator, fdiv, fmul, fadd, fsub, fabs, pymax, pyEq, pyLt, pyGe,
      PHI, abs_of_pos]
  · norm_num

/-- Claim C8: an intent flagged sanctioned is short-circuited by
validate_intent to a rejection with the compliance-failure reason,
whatever the other field values; the returned decision carries no score
trace and no risk score, so no score is computed. -/
theorem sanctioned_short_circuit (intent : Intent)
    (hs : intent.sanctioned = some (PyValue.pyBool true)) :
    validate_intent intent =
      { approved := false, epi_trace := none, risk_score := none
      , reason := VReason.complianceFail } := by
  simp [validate_intent, hs]

/-- Claim C8, witness: a sanctioned intent with perfect profit and
ethics is still rejected with the compliance-failure reason and no
score. -/
theorem sanctioned_short_circuit_witness :
    validate_intent
      { sanctioned := some (PyValue.pyBool true), exposure_ratio := 0
      , ethics_factors := [1, 1], roi_proxy := 1 } =
      { approved := false, epi_trace := none, risk_score := none
      , reason := VReason.complianceFail } :=
  sanctioned_short_circuit _ rfl

/-- Claim C10: the compliance gate tests only presence of the
sanctioned key: an intent carrying the key with any value at all
(false, 0, None, anything) is rejected with the compliance-failure
reason, and the decision is identical to the one for the same intent
flagged true. -/
theorem sanctioned_presence_only (intent : Intent) (v : PyValue)
    (hs : intent.sanctioned = some v) :
    (validate_intent intent).approved = false ∧
    (validate_intent intent).reason = VReason.complianceFail ∧
    validate_intent intent =
      validate_intent { intent with sanctioned := some (PyValue.pyBool true) } := by
  refine ⟨?_, ?_, ?_⟩ <;> simp [validate_intent, hs]

/-- Claim C10, witness: an intent whose sanctioned key holds the value
false, with otherwise excellent scores, is still rejected with the
compliance-failure reason. -/
theorem sanctioned_presence_only_witness :
    (validate_intent
      { sanctioned := some (PyValue.pyBool false), exposure_ratio := 0
      , ethics_factors := [9/10, 4/5], roi_proxy := 9/10 }).approved = false ∧
    (validate_intent
      { sanctioned := some (PyValue.pyBool false), exposure_ratio := 0
      , ethics_factors := [9/10, 4/5], roi_proxy := 9/10 }).reason
        = VReason.complianceFail := by
  have H := sanctioned_presence_only
    { sanctioned := some (PyValue.pyBool false), exposure_ratio := 0
    , ethics_factors := [9/10, 4/5], roi_proxy := 9/10 }
    (PyValue.pyBool false) rfl
  exact ⟨H.1, H.2.1⟩

/-- Claim C2, code-bug evidence: two log_thought appends in the same
clock second (hence in the same millisecond) write the very same file
name, namely session id, underscore, second-granularity timestamp; the
second write overwrites the first, so the store ends with a single
record and get_thought_history can only return the second one — the
first record is lost and the identifiers collide instead of being
distinct. -/
theorem same_tick_appends_collide (sid : String) (now : ℤ)
    (ag1 ac1 re1 ag2 ac2 re2 : String) :
    (log_thought (log_thought ⟨sid, []⟩ now ag1 ac1 re1 [] [] [] none)
        now ag2 ac2 re2 [] [] [] none).files
      = [(logFileName sid now, ⟨now, ag2, ac2, re2, [], [], [], []⟩)] ∧
    get_thought_history
        (log_thought (log_thought ⟨sid, []⟩ now ag1 ac1 re1 [] [] [] none)
          now ag2 ac2 re2 [] [] [] none) none none 100
      = [⟨now, ag2, ac2, re2, [], [], [], []⟩] := by
  constructor
  · simp [log_thought, writeFile, logFileName]
  · simp [log_thought, writeFile, logFileName, get_thought_history,
      sortFilesDesc, insertFileDesc, passesFilter]

end EPI
